import Mathlib

/-!
# Verification of `parkmap` (src/parkmap/park.py)

A shallow embedding of the Chennai smart-parking Streamlit script: the CSV
classifier (lines 29-57), the random-route generation loop (lines 72-110),
the parking-marker placement guard (lines 113-128), the final map render
(line 131), and — modelled from the spec, since no caching variant is under
`src/` — the GraphCache `obtain` retry logic.  External collaborators
(pandas filtering, the networkx path finder, folium rendering) are embedded
at the granularity the script observes them.
-/

namespace Parkmap

/-! ## Data model: uploaded parking records (park.py lines 29-57) -/

/-- One row of the uploaded CSV.  The script only ever reads the
`Latitude`, `Longitude` and `Action` fields; coordinates are modelled as
integers since no arithmetic is performed on them. -/
structure Row where
  lat : Int
  lon : Int
  action : String
deriving DecidableEq, Repr

/-- An uploaded CSV: its column names plus its rows.  The script checks the
column set (line 40) before touching any field. -/
structure Upload where
  cols : List String
  rows : List Row
deriving DecidableEq, Repr

/-- The column set required at park.py line 40:
`{'Latitude', 'Longitude', 'Action'}.issubset(df.columns)`. -/
def requiredColumns : List String := ["Latitude", "Longitude", "Action"]

/-- `True` iff every required column occurs among the upload's columns
(the `issubset` test of line 40). -/
def hasRequiredColumns (df : Upload) : Bool :=
  requiredColumns.all (fun c => df.cols.contains c)

/-- Output of the data-extraction section (park.py lines 29-57): the two
derived row sets and any user-visible warning. -/
structure ClassifyResult where
  congested : List Row
  available : List Row
  warnings : List String
deriving DecidableEq, Repr

/-- The missing-columns warning of park.py line 51. -/
def missingColumnsWarning : String :=
  "CSV file missing required columns: Latitude, Longitude, Action."

/-- park.py lines 29-57.  With an upload that has all required columns:
`congested_df = df[df["Action"].isin(["Searching", "Left"])]` and
`available_df = df[df["Action"] == "Parked"]` (lines 43-44).  Otherwise a
warning and two empty frames (lines 50-53); with no upload, two empty
frames (lines 54-57). -/
def classifyUpload (upload : Option Upload) : ClassifyResult :=
  match upload with
  | some df =>
    if hasRequiredColumns df then
      { congested := df.rows.filter (fun r => r.action == "Searching" || r.action == "Left")
        available := df.rows.filter (fun r => r.action == "Parked")
        warnings := [] }
    else
      { congested := [], available := [], warnings := [missingColumnsWarning] }
  | none => { congested := [], available := [], warnings := [] }

/-- A map marker: a coordinate pair and a colour. -/
structure Marker where
  pos : Int × Int
  color : String
deriving DecidableEq, Repr

/-! ## Road network (park.py lines 18-26, 72-110)

The graph returned by `ox.graph_from_bbox` is a directed multigraph whose
nodes carry `y` (latitude) and `x` (longitude) attributes and whose edges
carry lengths.  The script observes only: the node list, the edge count,
each node's coordinates, and the networkx path queries. -/

/-- A road-network node: its OSM identifier and its `y`/`x` coordinate
attributes (integers, since the script does no arithmetic on them). -/
structure Node where
  id : Nat
  y : Int
  x : Int
deriving DecidableEq, Repr

/-- The road network: nodes with attributes, directed edges between node
identifiers.  Edge-length weights are not modelled: the script reads them
only through the external shortest-path routine, whose output is modelled
below at the granularity the script observes. -/
structure Graph where
  nodes : List Node
  edges : List (Nat × Nat)
deriving DecidableEq, Repr

/-- `graph.nodes()`: the list of node identifiers. -/
def Graph.nodeIds (g : Graph) : List Nat := g.nodes.map (fun n => n.id)

/-- `graph.nodes[node]['y'], graph.nodes[node]['x']` (park.py lines 84,
96-97): the coordinate pair of a node identifier. -/
def Graph.coord (g : Graph) (i : Nat) : Int × Int :=
  match g.nodes.find? (fun n => n.id == i) with
  | some n => (n.y, n.x)
  | none => (0, 0)

/-- Directed successors of a node: targets of the edges leaving it. -/
def Graph.successors (g : Graph) (u : Nat) : List Nat :=
  (g.edges.filter (fun e => e.1 == u)).map (fun e => e.2)

/-- Fueled breadth-first path search over reversed paths (head = current
endpoint).  Model of the external graph library's path search as observed
by park.py: it returns a node sequence from origin to target when one
exists and nothing otherwise, and for origin = target it returns the
single-node path. -/
def bfsPaths (g : Graph) (target : Nat) :
    Nat → List (List Nat) → List Nat → Option (List Nat)
  | 0, _, _ => none
  | _ + 1, [], _ => none
  | fuel + 1, p :: rest, visited =>
    match p with
    | [] => bfsPaths g target fuel rest visited
    | u :: _ =>
      if u = target then some p.reverse
      else if u ∈ visited then bfsPaths g target fuel rest visited
      else
        bfsPaths g target fuel
          (rest ++ (g.successors u).map (fun w => w :: p)) (u :: visited)

/-- Fuel bound: BFS with a visited set pops at most one entry per node
expansion plus one per edge; this bound over-provisions. -/
def Graph.bfsFuel (g : Graph) : Nat :=
  (g.nodes.length + 1) * (g.edges.length + 1) + g.edges.length + 2

/-- `nx.shortest_path(graph, orig, dest, weight="length")` as observed at
park.py line 81: some node sequence from origin to destination when the
destination is reachable, `none` otherwise. -/
def shortestPath (g : Graph) (o d : Nat) : Option (List Nat) :=
  bfsPaths g d g.bfsFuel [[o]] []

/-- `nx.has_path(graph, orig, dest)` (park.py line 79): whether a
connecting path exists. -/
def hasPath (g : Graph) (o d : Nat) : Bool :=
  (shortestPath g o d).isSome

/-! ## Random choice (park.py lines 75-76, `random.choice`) -/

/-- Draw one value from a pseudo-random stream, modelled as a list of
naturals (empty stream yields 0). -/
def draw (rng : List Nat) : Nat × List Nat :=
  match rng with
  | [] => (0, [])
  | r :: rs => (r, rs)

/-- `random.choice(list(graph.nodes()))`: a uniform pick from a list,
modelled by indexing with a drawn value modulo the length; `none` on an
empty list (Python raises `IndexError` there, caught at line 109). -/
def choice (l : List Nat) (rng : List Nat) : Option Nat × List Nat :=
  let (r, rs) := draw rng
  (l.get? (r % l.length), rs)

/-! ## Route-generation loop (park.py lines 72-110) -/

/-- A rendered polyline: the coordinate sequence handed to
`folium.PolyLine` (park.py lines 84-93). -/
abbrev Polyline := List (Int × Int)

/-- Accumulated observable output of the route loop: user-visible warnings
(line 108), user-visible errors (line 110), rendered route polylines
(lines 87-93) and origin/destination markers (lines 99-105). -/
structure RouteState where
  warnings : List String
  errors : List String
  polylines : List Polyline
  markers : List Marker
deriving DecidableEq, Repr

/-- The route loop's starting state: nothing rendered yet. -/
def initialRouteState : RouteState :=
  { warnings := [], errors := [], polylines := [], markers := [] }

/-- The warning of park.py line 108. -/
def noPathWarning : String := "No path found between random nodes."

/-- park.py lines 75-76: sample the origin and destination node for one
iteration by two independent `random.choice` calls on the node list. -/
def sampleEndpoints (g : Graph) (rng : List Nat) :
    (Option Nat × Option Nat) × List Nat :=
  let (o, rng1) := choice g.nodeIds rng
  let (d, rng2) := choice g.nodeIds rng1
  ((o, d), rng2)

/-- One iteration of the `for _ in range(num_routes)` body (park.py lines
73-110): sample two nodes; if `nx.has_path` holds, render the shortest
path's coordinates as a polyline plus a green origin marker and a red
destination marker; otherwise warn.  An exception inside the body (e.g.
`random.choice` on an empty node list) is caught and shown as an error. -/
def routeIteration (g : Graph) (st : RouteState) (rng : List Nat) :
    RouteState × List Nat :=
  match sampleEndpoints g rng with
  | ((some o, some d), rng') =>
    if hasPath g o d then
      let route := (shortestPath g o d).getD []
      let coords : Polyline := route.map g.coord
      ({ st with
          polylines := st.polylines ++ [coords]
          markers := st.markers
            ++ [{ pos := g.coord o, color := "green" },
                { pos := g.coord d, color := "red" }] }, rng')
    else
      ({ st with warnings := st.warnings ++ [noPathWarning] }, rng')
  | ((_, _), rng') =>
    ({ st with errors := st.errors ++ ["Error"] }, rng')

/-- park.py line 72: run `numRoutes` iterations of the route loop,
threading the render state and the random stream. -/
def generateRoutes (g : Graph) : Nat → List Nat → RouteState → RouteState × List Nat
  | 0, rng, st => (st, rng)
  | n + 1, rng, st =>
    let (st', rng') := routeIteration g st rng
    generateRoutes g n rng' st'

/-! ## Parking-marker placement (park.py lines 113-128) -/

/-- park.py lines 113-128: markers for the uploaded rows are added only
under the guard `if not congested_df.empty and not available_df.empty`;
then every congested row gets a red marker and every available row a green
one. -/
def placeParkingMarkers (congested available : List Row) : List Marker :=
  if !congested.isEmpty && !available.isEmpty then
    congested.map (fun r => { pos := (r.lat, r.lon), color := "red" })
      ++ available.map (fun r => { pos := (r.lat, r.lon), color := "green" })
  else
    []

/-! ## The whole session pipeline (park.py top to bottom) -/

/-- Observable output of one session of the script: the graph-validation
messages (lines 23-26), the classifier output (lines 29-57), the route
loop's output (lines 72-110), the uploaded-data markers (lines 113-128)
and whether the map was rendered (line 131). -/
structure PipelineOutput where
  graphError : Bool
  graphSuccess : Bool
  uploadWarnings : List String
  congested : List Row
  available : List Row
  routes : RouteState
  parkingMarkers : List Marker
  mapRendered : Bool
deriving DecidableEq, Repr

/-- The script run end to end on a loaded graph, an optional upload, the
slider value `num_routes` and a random stream.  Every stage of park.py
executes unconditionally in file order: the zero-edge check only chooses
between `st.error` and `st.success` (lines 23-26), the route loop always
runs (line 72) and `folium_static(m)` always renders the map (line 131). -/
def runPipeline (g : Graph) (upload : Option Upload) (numRoutes : Nat)
    (rng : List Nat) : PipelineOutput :=
  let c := classifyUpload upload
  let rs := (generateRoutes g numRoutes rng initialRouteState).1
  { graphError := g.edges.isEmpty
    graphSuccess := !g.edges.isEmpty
    uploadWarnings := c.warnings
    congested := c.congested
    available := c.available
    routes := rs
    parkingMarkers := placeParkingMarkers c.congested c.available
    mapRendered := true }

/-! ## GraphCache (spec §4.1)

No caching/retry variant of the script is under `src/`; only the direct
`ox.graph_from_bbox` fetch (park.py lines 19-20) is.  The component below
is therefore modelled from the spec. -/

/-- Observable outcome of `GraphCache.obtain`: the network or Failure, the
number of provider calls performed, the warnings logged, and the backoff
sleeps (in seconds) performed between failed attempts. -/
structure ObtainResult where
  network : Option Graph
  attempts : Nat
  warnings : Nat
  sleeps : List Nat
deriving DecidableEq, Repr

/-- Modelled from the spec: the bounded retry loop of GraphCache §4.1,
which is not among the source files (only the direct-fetch variant is).
`provider n` is the result of the `n`-th remote call (0-based);
`remaining` is the remaining attempt budget.  Each failed attempt logs a
warning; a fixed 5-second backoff is slept between failed attempts. -/
def obtainLoop (provider : Nat → Option Graph) (attempted : Nat) :
    Nat → ObtainResult
  | 0 => { network := none, attempts := attempted, warnings := attempted, sleeps := [] }
  | remaining + 1 =>
    match provider attempted with
    | some g =>
      { network := some g, attempts := attempted + 1, warnings := attempted
        sleeps := [] }
    | none =>
      let rest := obtainLoop provider (attempted + 1) remaining
      { rest with
          sleeps := (if remaining = 0 then [] else [5]) ++ rest.sleeps }

/-- Modelled from the spec: `GraphCache.obtain(region)` (§4.1).  A
deserializable snapshot is returned at once with no provider call; on a
snapshot miss the provider is retried up to the literal cap of 3 attempts
with a fixed 5-second backoff between failed attempts, and exhaustion of
the budget yields Failure (`network = none`). -/
def obtain (snapshot : Option Graph) (provider : Nat → Option Graph) :
    ObtainResult :=
  match snapshot with
  | some g => { network := some g, attempts := 0, warnings := 0, sleeps := [] }
  | none => obtainLoop provider 0 3

/-! ## Concrete fixtures for witnesses and counterexamples -/

/-- A one-node, zero-edge network. -/
def gOneNode : Graph :=
  { nodes := [{ id := 100, y := 13, x := 80 }], edges := [] }

/-- A two-node network with no edges at all: no two distinct nodes are
connected by any path. -/
def gTwoIsolated : Graph :=
  { nodes := [{ id := 100, y := 13, x := 80 }, { id := 200, y := 14, x := 81 }]
    edges := [] }

/-- A two-node network with one edge, used where routes must exist. -/
def gTwoConnected : Graph :=
  { nodes := [{ id := 100, y := 13, x := 80 }, { id := 200, y := 14, x := 81 }]
    edges := [(100, 200)] }

/-- The spec's four-row classifier example: actions Searching, Left,
Parked, Parked. -/
def sampleUpload : Upload :=
  { cols := ["Latitude", "Longitude", "Action"]
    rows :=
      [{ lat := 1, lon := 2, action := "Searching" },
       { lat := 3, lon := 4, action := "Left" },
       { lat := 5, lon := 6, action := "Parked" },
       { lat := 7, lon := 8, action := "Parked" }] }

/-- An upload lacking the `Action` column. -/
def sampleUploadNoAction : Upload :=
  { cols := ["Latitude", "Longitude"]
    rows := [{ lat := 1, lon := 2, action := "Searching" }] }

/-- An upload whose rows are all congested (no `Parked` action). -/
def sampleUploadCongestedOnly : Upload :=
  { cols := ["Latitude", "Longitude", "Action"]
    rows := [{ lat := 1, lon := 2, action := "Searching" }] }

/-- An upload containing a row with an unrecognized action tag. -/
def sampleUploadUnknownAction : Upload :=
  { cols := ["Latitude", "Longitude", "Action"]
    rows :=
      [{ lat := 1, lon := 2, action := "Searching" },
       { lat := 9, lon := 9, action := "Arrived" }] }

/-! ## Helper lemmas -/

/-- In an edge-free graph a node has no successors. -/
lemma successors_of_no_edges (g : Graph) (hedges : g.edges = []) (u : Nat) :
    g.successors u = [] := by
  simp [Graph.successors, hedges]

/-- BFS from `u` in an edge-free graph never reaches a different node
(for any fuel of the form `fuel + 2`). -/
lemma bfsPaths_no_edges_ne (g : Graph) (hedges : g.edges = []) (u v : Nat)
    (huv : u ≠ v) (fuel : Nat) :
    bfsPaths g v (fuel + 2) [[u]] [] = none := by
  have hsucc := successors_of_no_edges g hedges u
  simp [bfsPaths, huv, hsucc]

/-- The external path finder finds no path between distinct nodes of an
edge-free graph. -/
lemma shortestPath_no_edges_ne (g : Graph) (hedges : g.edges = []) (u v : Nat)
    (huv : u ≠ v) : shortestPath g u v = none := by
  have h : g.bfsFuel =
      ((g.nodes.length + 1) * (g.edges.length + 1) + g.edges.length) + 2 := rfl
  rw [shortestPath, h]
  exact bfsPaths_no_edges_ne g hedges u v huv _

/-- `nx.has_path` is false between distinct nodes of an edge-free graph. -/
lemma hasPath_no_edges_ne (g : Graph) (hedges : g.edges = []) (u v : Nat)
    (huv : u ≠ v) : hasPath g u v = false := by
  rw [hasPath, shortestPath_no_edges_ne g hedges u v huv]
  rfl

/-- The external path finder returns the single-node path when origin and
destination coincide. -/
lemma shortestPath_self (g : Graph) (u : Nat) :
    shortestPath g u u = some [u] := by
  have h : g.bfsFuel =
      ((g.nodes.length + 1) * (g.edges.length + 1) + g.edges.length + 1) + 1 := rfl
  rw [shortestPath, h]
  simp [bfsPaths]

/-- Sampling endpoints from a stream of at least two values yields the node
identifiers at the two drawn indices (mod the node count) and passes the
rest of the stream on. -/
lemma sampleEndpoints_cons_cons (g : Graph) (a b : Nat) (rest : List Nat) :
    sampleEndpoints g (a :: b :: rest) =
      ((g.nodeIds.get? (a % g.nodeIds.length),
        g.nodeIds.get? (b % g.nodeIds.length)), rest) := by
  simp [sampleEndpoints, choice, draw]

/-- Indexing a duplicate-free nonempty list at two indices that differ mod
its length yields two distinct elements. -/
lemma get?_mod_ne_of_nodup (l : List Nat) (hnd : l.Nodup) (h0 : 0 < l.length)
    (i j : Nat) (hij : i % l.length ≠ j % l.length) :
    ∃ u v, l.get? (i % l.length) = some u ∧ l.get? (j % l.length) = some v ∧
      u ≠ v := by
  have hi : i % l.length < l.length := Nat.mod_lt _ h0
  have hj : j % l.length < l.length := Nat.mod_lt _ h0
  refine ⟨l.get ⟨i % l.length, hi⟩, l.get ⟨j % l.length, hj⟩,
    List.get?_eq_get hi, List.get?_eq_get hj, ?_⟩
  intro hequ
  exact hij (congrArg Fin.val ((hnd.get_inj_iff).mp hequ))

/-- One loop iteration on an edge-free graph, when the two drawn indices
pick out distinct nodes, appends exactly the no-path warning and renders
nothing. -/
lemma routeIteration_no_edges_distinct (g : Graph) (st : RouteState)
    (a b : Nat) (rest : List Nat) (hedges : g.edges = [])
    (hnd : g.nodeIds.Nodup) (h0 : 0 < g.nodeIds.length)
    (hab : a % g.nodeIds.length ≠ b % g.nodeIds.length) :
    routeIteration g st (a :: b :: rest) =
      ({ st with warnings := st.warnings ++ [noPathWarning] }, rest) := by
  obtain ⟨u, v, hu, hv, huv⟩ := get?_mod_ne_of_nodup g.nodeIds hnd h0 a b hab
  rw [routeIteration, sampleEndpoints_cons_cons, hu, hv]
  simp [hasPath_no_edges_ne g hedges u v huv]

/-! ## Claim theorems -/

/-- C1, counterexample: on a one-node, zero-edge network the script shows
the zero-edge error yet still runs all 3 route-loop iterations (three
degenerate routes get rendered) and still renders the map — contradicting
the claim that no iteration runs and no map is rendered. -/
theorem C1_cex_zero_edges_does_not_halt :
    gOneNode.edges = [] ∧
    (runPipeline gOneNode none 3 [0, 0, 0, 0, 0, 0]).graphError = true ∧
    (runPipeline gOneNode none 3 [0, 0, 0, 0, 0, 0]).routes.polylines.length = 3 ∧
    (runPipeline gOneNode none 3 [0, 0, 0, 0, 0, 0]).mapRendered = true := by
  decide

/-- C1, amended: with a zero-edge network a visible error is shown (and no
success message), but the session does not halt — the route-sampling loop
still executes for the configured number of iterations and the map is
still rendered. -/
theorem C1_zero_edges_error_but_session_continues (g : Graph)
    (u : Option Upload) (n : Nat) (rng : List Nat) (h : g.edges = []) :
    (runPipeline g u n rng).graphError = true ∧
    (runPipeline g u n rng).graphSuccess = false ∧
    (runPipeline g u n rng).routes = (generateRoutes g n rng initialRouteState).1 ∧
    (runPipeline g u n rng).mapRendered = true := by
  simp [runPipeline, h]

/-- C1, witness for the amended theorem at the one-node graph. -/
theorem C1_witness :
    (runPipeline gOneNode none 3 [0, 0, 0, 0, 0, 0]).graphError = true ∧
    (runPipeline gOneNode none 3 [0, 0, 0, 0, 0, 0]).graphSuccess = false ∧
    (runPipeline gOneNode none 3 [0, 0, 0, 0, 0, 0]).routes =
      (generateRoutes gOneNode 3 [0, 0, 0, 0, 0, 0] initialRouteState).1 ∧
    (runPipeline gOneNode none 3 [0, 0, 0, 0, 0, 0]).mapRendered = true :=
  C1_zero_edges_error_but_session_continues gOneNode none 3 [0, 0, 0, 0, 0, 0] rfl

/-- C2: whenever the upload has the required columns, the congested set
holds exactly the uploaded rows whose action is `Searching` or `Left` and
the available set exactly those whose action is `Parked`; in particular
the spec's {Searching, Left, Parked, Parked} example yields congested
count 2 and available count 2. -/
theorem C2_classifier_splits_by_action :
    (∀ df : Upload, hasRequiredColumns df = true →
      (∀ r : Row, r ∈ (classifyUpload (some df)).congested ↔
        r ∈ df.rows ∧ (r.action = "Searching" ∨ r.action = "Left")) ∧
      (∀ r : Row, r ∈ (classifyUpload (some df)).available ↔
        r ∈ df.rows ∧ r.action = "Parked")) ∧
    (classifyUpload (some sampleUpload)).congested.length = 2 ∧
    (classifyUpload (some sampleUpload)).available.length = 2 := by
  refine ⟨fun df h => ⟨fun r => ?_, fun r => ?_⟩, by decide, by decide⟩
  · simp [classifyUpload, h, List.mem_filter]
  · simp [classifyUpload, h, List.mem_filter]

/-- C2, witness at the spec's four-row example. -/
theorem C2_witness :
    hasRequiredColumns sampleUpload = true ∧
    ({ lat := 1, lon := 2, action := "Searching" } ∈
        (classifyUpload (some sampleUpload)).congested ↔
      { lat := 1, lon := 2, action := "Searching" } ∈ sampleUpload.rows ∧
        (("Searching" : String) = "Searching" ∨ ("Searching" : String) = "Left")) :=
  ⟨by decide,
    (C2_classifier_splits_by_action.1 sampleUpload (by decide)).1
      { lat := 1, lon := 2, action := "Searching" }⟩

/-- C3: an upload missing a required column produces the user-visible
missing-columns warning and two empty sets, and the session continues —
the route loop still runs and the map is still rendered. -/
theorem C3_missing_columns_warn_and_continue (g : Graph) (df : Upload)
    (n : Nat) (rng : List Nat) (h : hasRequiredColumns df = false) :
    (runPipeline g (some df) n rng).uploadWarnings = [missingColumnsWarning] ∧
    (runPipeline g (some df) n rng).congested = [] ∧
    (runPipeline g (some df) n rng).available = [] ∧
    (runPipeline g (some df) n rng).routes =
      (generateRoutes g n rng initialRouteState).1 ∧
    (runPipeline g (some df) n rng).mapRendered = true := by
  simp [runPipeline, classifyUpload, h]

/-- C3, witness at an upload lacking the `Action` column. -/
theorem C3_witness :
    (runPipeline gTwoConnected (some sampleUploadNoAction) 1 [0, 1]).uploadWarnings =
      [missingColumnsWarning] ∧
    (runPipeline gTwoConnected (some sampleUploadNoAction) 1 [0, 1]).congested = [] ∧
    (runPipeline gTwoConnected (some sampleUploadNoAction) 1 [0, 1]).available = [] ∧
    (runPipeline gTwoConnected (some sampleUploadNoAction) 1 [0, 1]).routes =
      (generateRoutes gTwoConnected 1 [0, 1] initialRouteState).1 ∧
    (runPipeline gTwoConnected (some sampleUploadNoAction) 1 [0, 1]).mapRendered = true :=
  C3_missing_columns_warn_and_continue gTwoConnected sampleUploadNoAction 1 [0, 1]
    (by decide)

/-- C4 (GraphCache modelled from the spec): with no snapshot and an
always-failing provider, `obtain` performs exactly 3 provider calls, logs
a warning per failed attempt, sleeps the fixed 5-second backoff between
failed attempts, and returns Failure. -/
theorem C4_obtain_three_attempts_then_failure (provider : Nat → Option Graph)
    (h : ∀ n, provider n = none) :
    obtain none provider =
      { network := none, attempts := 3, warnings := 3, sleeps := [5, 5] } := by
  simp [obtain, obtainLoop, h]

/-- C4, witness at the constantly failing provider. -/
theorem C4_witness :
    obtain none (fun _ => (none : Option Graph)) =
      { network := none, attempts := 3, warnings := 3, sleeps := [5, 5] } :=
  C4_obtain_three_attempts_then_failure (fun _ => none) (fun _ => rfl)

/-- Unrolling one iteration of the route loop. -/
lemma generateRoutes_succ (g : Graph) (n : Nat) (rng : List Nat)
    (st : RouteState) :
    generateRoutes g (n + 1) rng st =
      generateRoutes g n (routeIteration g st rng).2 (routeIteration g st rng).1 :=
  rfl

/-- C5, counterexample: with random stream `[0, 0]` on the two-node network
the sampled origin and destination are the same node (100), and the
iteration still proceeds to render a route — so the endpoints are not
always two distinct nodes. -/
theorem C5_cex_endpoints_coincide :
    (sampleEndpoints gTwoIsolated [0, 0]).1 = (some 100, some 100) ∧
    (routeIteration gTwoIsolated initialRouteState [0, 0]).1.polylines.length = 1 := by
  decide

/-- C5, amended: each endpoint is obtained by its own independent uniform
draw indexing the node list (so each endpoint is a node of the network),
and nothing forces the two draws apart — draws that agree modulo the node
count yield origin = destination. -/
theorem C5_endpoints_independent_uniform_draws (g : Graph) (r1 r2 : Nat)
    (rest : List Nat) :
    (sampleEndpoints g (r1 :: r2 :: rest)).1.1 =
      g.nodeIds.get? (r1 % g.nodeIds.length) ∧
    (sampleEndpoints g (r1 :: r2 :: rest)).1.2 =
      g.nodeIds.get? (r2 % g.nodeIds.length) ∧
    (∀ u : Nat, (sampleEndpoints g (r1 :: r2 :: rest)).1.1 = some u →
      u ∈ g.nodeIds) ∧
    (r1 % g.nodeIds.length = r2 % g.nodeIds.length →
      (sampleEndpoints g (r1 :: r2 :: rest)).1.1 =
        (sampleEndpoints g (r1 :: r2 :: rest)).1.2) := by
  rw [sampleEndpoints_cons_cons]
  exact ⟨rfl, rfl, fun u hu => List.get?_mem hu, fun h => by rw [h]⟩

/-- C5, witness: two draws that agree mod the node count coincide. -/
theorem C5_witness :
    (sampleEndpoints gTwoIsolated [0, 2]).1.1 =
      (sampleEndpoints gTwoIsolated [0, 2]).1.2 :=
  (C5_endpoints_independent_uniform_draws gTwoIsolated 0 2 []).2.2.2 (by decide)

/-- C6, counterexample: in the two-isolated-node network no two distinct
nodes are connected, yet a run of 3 route requests whose first iteration
samples the same node twice produces only 2 warnings and renders 1
(degenerate) polyline — not 3 warnings and 0 polylines. -/
theorem C6_cex_same_node_sample_breaks_counts :
    (∀ u ∈ gTwoIsolated.nodeIds, ∀ v ∈ gTwoIsolated.nodeIds, u ≠ v →
      hasPath gTwoIsolated u v = false) ∧
    (generateRoutes gTwoIsolated 3 [0, 0, 0, 1, 1, 0]
      initialRouteState).1.warnings.length = 2 ∧
    (generateRoutes gTwoIsolated 3 [0, 0, 0, 1, 1, 0]
      initialRouteState).1.polylines.length = 1 := by
  decide

/-- C6, amended: requesting 3 routes from an edge-free network produces
exactly 3 warnings and 0 rendered polylines provided each of the three
iterations samples two distinct nodes; an iteration that samples the same
node twice renders a degenerate single-node polyline instead of warning. -/
theorem C6_three_warnings_when_samples_distinct (g : Graph)
    (a1 b1 a2 b2 a3 b3 : Nat) (hedges : g.edges = [])
    (hnd : g.nodeIds.Nodup) (h0 : 0 < g.nodeIds.length)
    (h1 : a1 % g.nodeIds.length ≠ b1 % g.nodeIds.length)
    (h2 : a2 % g.nodeIds.length ≠ b2 % g.nodeIds.length)
    (h3 : a3 % g.nodeIds.length ≠ b3 % g.nodeIds.length) :
    (generateRoutes g 3 [a1, b1, a2, b2, a3, b3]
      initialRouteState).1.warnings.length = 3 ∧
    (generateRoutes g 3 [a1, b1, a2, b2, a3, b3]
      initialRouteState).1.polylines = [] := by
  have e1 := routeIteration_no_edges_distinct g initialRouteState a1 b1
    [a2, b2, a3, b3] hedges hnd h0 h1
  have e2 := routeIteration_no_edges_distinct g
    { initialRouteState with
        warnings := initialRouteState.warnings ++ [noPathWarning] }
    a2 b2 [a3, b3] hedges hnd h0 h2
  have e3 := routeIteration_no_edges_distinct g
    { initialRouteState with
        warnings := initialRouteState.warnings ++ [noPathWarning]
          ++ [noPathWarning] }
    a3 b3 [] hedges hnd h0 h3
  rw [generateRoutes_succ, e1]
  rw [generateRoutes_succ]
  simp only []
  rw [e2]
  rw [generateRoutes_succ]
  simp only []
  rw [e3]
  simp [generateRoutes, initialRouteState]

/-- C6, witness for the amended theorem: all three iterations sample
distinct pairs, giving 3 warnings and 0 polylines. -/
theorem C6_witness :
    (generateRoutes gTwoIsolated 3 [0, 1, 0, 1, 1, 0]
      initialRouteState).1.warnings.length = 3 ∧
    (generateRoutes gTwoIsolated 3 [0, 1, 0, 1, 1, 0]
      initialRouteState).1.polylines = [] :=
  C6_three_warnings_when_samples_distinct gTwoIsolated 0 1 0 1 1 0 rfl
    (by decide) (by decide) (by decide) (by decide) (by decide)

/-- C7: whenever the sampled pair has no connecting path, that iteration
appends exactly the user-visible no-path warning — no polyline, no marker,
no error — and the loop continues with the next iteration on the remaining
random stream. -/
theorem C7_no_path_warns_and_loop_continues (g : Graph) (st : RouteState)
    (rng rng' : List Nat) (o d : Nat)
    (hs : sampleEndpoints g rng = ((some o, some d), rng'))
    (hp : hasPath g o d = false) :
    routeIteration g st rng =
      ({ st with warnings := st.warnings ++ [noPathWarning] }, rng') ∧
    ∀ n : Nat, generateRoutes g (n + 1) rng st =
      generateRoutes g n rng'
        { st with warnings := st.warnings ++ [noPathWarning] } := by
  have h1 : routeIteration g st rng =
      ({ st with warnings := st.warnings ++ [noPathWarning] }, rng') := by
    rw [routeIteration, hs]
    simp [hp]
  exact ⟨h1, fun n => by rw [generateRoutes_succ, h1]⟩

/-- C7, witness: the two isolated nodes are sampled and the iteration only
warns, then the loop goes on. -/
theorem C7_witness :
    routeIteration gTwoIsolated initialRouteState [0, 1] =
      ({ initialRouteState with
          warnings := initialRouteState.warnings ++ [noPathWarning] }, []) ∧
    generateRoutes gTwoIsolated 1 [0, 1] initialRouteState =
      generateRoutes gTwoIsolated 0 []
        { initialRouteState with
            warnings := initialRouteState.warnings ++ [noPathWarning] } :=
  ⟨(C7_no_path_warns_and_loop_continues gTwoIsolated initialRouteState [0, 1] []
      100 200 (by decide) (by decide)).1,
    (C7_no_path_warns_and_loop_continues gTwoIsolated initialRouteState [0, 1] []
      100 200 (by decide) (by decide)).2 0⟩

/-- C8: an iteration whose two draws pick the same node proceeds: the path
test succeeds trivially, the degenerate single-node route is rendered as a
polyline, and the green origin and red destination markers are placed at
the same coordinates. -/
theorem C8_same_node_renders_degenerate_route (g : Graph) (st : RouteState)
    (r : Nat) (rest : List Nat) (u : Nat)
    (hu : g.nodeIds.get? (r % g.nodeIds.length) = some u) :
    hasPath g u u = true ∧
    shortestPath g u u = some [u] ∧
    routeIteration g st (r :: r :: rest) =
      ({ st with
          polylines := st.polylines ++ [[g.coord u]]
          markers := st.markers
            ++ [{ pos := g.coord u, color := "green" },
                { pos := g.coord u, color := "red" }] }, rest) := by
  have hsp := shortestPath_self g u
  have hhp : hasPath g u u = true := by rw [hasPath, hsp]; rfl
  refine ⟨hhp, hsp, ?_⟩
  rw [routeIteration, sampleEndpoints_cons_cons, hu]
  simp [hhp, hsp]

/-- C8, witness: node 100 drawn twice on the two-node network. -/
theorem C8_witness :
    hasPath gTwoIsolated 100 100 = true ∧
    shortestPath gTwoIsolated 100 100 = some [100] ∧
    routeIteration gTwoIsolated initialRouteState [0, 0] =
      ({ initialRouteState with
          polylines := initialRouteState.polylines ++ [[gTwoIsolated.coord 100]]
          markers := initialRouteState.markers
            ++ [{ pos := gTwoIsolated.coord 100, color := "green" },
                { pos := gTwoIsolated.coord 100, color := "red" }] }, []) :=
  C8_same_node_renders_degenerate_route gTwoIsolated initialRouteState 0 [] 100
    (by decide)

/-- Parking markers are skipped entirely when either derived set is
empty. -/
lemma placeParkingMarkers_empty (c a : List Row) (h : c = [] ∨ a = []) :
    placeParkingMarkers c a = [] := by
  rcases h with h | h <;> simp [placeParkingMarkers, h]

/-- With both derived sets nonempty, every congested row gets a red marker
and every available row a green one. -/
lemma placeParkingMarkers_both (c a : List Row) (hc : c ≠ []) (ha : a ≠ []) :
    placeParkingMarkers c a =
      c.map (fun r => { pos := (r.lat, r.lon), color := "red" })
        ++ a.map (fun r => { pos := (r.lat, r.lon), color := "green" }) := by
  simp [placeParkingMarkers, hc, ha]

/-- C9: uploaded parking markers appear only when both derived sets are
nonempty — if either set is empty no uploaded marker at all is rendered,
including those of the nonempty set; when both are nonempty all rows of
both sets are rendered. -/
theorem C9_markers_only_when_both_sets_nonempty (g : Graph)
    (u : Option Upload) (n : Nat) (rng : List Nat) :
    (((runPipeline g u n rng).congested = [] ∨
        (runPipeline g u n rng).available = []) →
      (runPipeline g u n rng).parkingMarkers = []) ∧
    ((runPipeline g u n rng).congested ≠ [] →
      (runPipeline g u n rng).available ≠ [] →
      (runPipeline g u n rng).parkingMarkers =
        (runPipeline g u n rng).congested.map
          (fun r => { pos := (r.lat, r.lon), color := "red" })
          ++ (runPipeline g u n rng).available.map
            (fun r => { pos := (r.lat, r.lon), color := "green" })) :=
  ⟨fun h => placeParkingMarkers_empty _ _ h,
    fun hc ha => placeParkingMarkers_both _ _ hc ha⟩

/-- C9, witness: an upload with only congested rows renders no uploaded
markers at all. -/
theorem C9_witness :
    (runPipeline gTwoConnected (some sampleUploadCongestedOnly) 1
      [0, 1]).parkingMarkers = [] :=
  (C9_markers_only_when_both_sets_nonempty gTwoConnected
    (some sampleUploadCongestedOnly) 1 [0, 1]).1 (Or.inr (by decide))

/-- C10: an uploaded row whose action is outside
{Searching, Left, Parked} lands in neither derived set, and the classifier
emits no warning about it — so the two sets do not partition the uploaded
rows. -/
theorem C10_unknown_action_in_neither_set (df : Upload) (r : Row)
    (hcols : hasRequiredColumns df = true) (_hr : r ∈ df.rows)
    (ha : r.action ∉ (["Searching", "Left", "Parked"] : List String)) :
    r ∉ (classifyUpload (some df)).congested ∧
    r ∉ (classifyUpload (some df)).available ∧
    (classifyUpload (some df)).warnings = [] := by
  simp only [List.mem_cons, List.not_mem_nil, or_false, not_or] at ha
  obtain ⟨h1, h2, h3⟩ := ha
  simp [classifyUpload, hcols, List.mem_filter, h1, h2, h3]

/-- C10, witness: the row tagged `Arrived` is in the upload but in neither
derived set, with no warning produced. -/
theorem C10_witness :
    ({ lat := 9, lon := 9, action := "Arrived" } : Row) ∉
      (classifyUpload (some sampleUploadUnknownAction)).congested ∧
    ({ lat := 9, lon := 9, action := "Arrived" } : Row) ∉
      (classifyUpload (some sampleUploadUnknownAction)).available ∧
    (classifyUpload (some sampleUploadUnknownAction)).warnings = [] :=
  C10_unknown_action_in_neither_set sampleUploadUnknownAction
    { lat := 9, lon := 9, action := "Arrived" } (by decide) (by decide)
    (by decide)

end Parkmap
